import Mathlib

set_option maxRecDepth 100000

/-!
Shallow embedding of the promise construction/signing and settlement
encoding of the `payments` repository (Go package `promises` and the
channel exit protocol), together with proofs about it.

Bytes are modelled as `Nat` (values below 256 by construction of the
encoders), byte strings as `List Nat`, Go `int64` fields as `Int`,
and fallible Go functions as `Except Err`.  The elliptic-curve
primitives (`crypto.Sign`, `crypto.Ecrecover`, `crypto.Keccak256`,
address derivation) are external library calls; they are modelled as an
abstract `CryptoModel` record, and properties of the primitives that a
claim relies on appear as explicit hypotheses.
-/

namespace Payments

/-- Errors surfaced by the embedded operations. -/
inductive Err where
  | signingError (code : Nat)
  | invalidSignature (code : Nat)
  | malformedSignature
  | exitNotMatured
  | noExitRequest
deriving DecidableEq, Repr

/-- Abstract model of the go-ethereum crypto primitives used by the
package: `Keccak256` (over the concatenation of its variadic parts),
`Sign`, `Ecrecover`, and `ToECDSAPub`-then-`PubkeyToAddress` collapsed
into `pubkeyToAddress`.  `pubOf` gives the public key belonging to a
private key (used only to state correctness assumptions about the
primitives). -/
structure CryptoModel where
  keccak256 : List Nat → List Nat
  sign : List Nat → Nat → Except Err (List Nat)
  ecrecover : List Nat → List Nat → Except Err (List Nat)
  pubkeyToAddress : List Nat → List Nat
  pubOf : Nat → List Nat

/-- Go `registry.MystIdentity`: only its `PrivateKey` field is used. -/
structure MystIdentity where
  privateKey : Nat
deriving DecidableEq, Repr

/-- Go `Promise` with `Receiver common.Address`, `SeqNo int64`, `Amount int64`.
`common.Address` is a 20-byte array; the list length is constrained by
hypothesis where the layout matters. -/
structure Promise where
  receiver : List Nat
  seqNo : Int
  amount : Int
deriving DecidableEq, Repr

/-- Go `IssuedPromise`: the embedded `Promise` plus `IssuerSignature []byte`. -/
structure IssuedPromise where
  promise : Promise
  issuerSignature : List Nat
deriving DecidableEq, Repr

/-- Go `ReceivedPromise`: the embedded `IssuedPromise` plus `ReceiverSignature []byte`. -/
structure ReceivedPromise where
  issued : IssuedPromise
  receiverSignature : List Nat
deriving DecidableEq, Repr

/-- Byte string of the Go constant `issuerPrefix = "Issuer prefix:"`
(pure ASCII, so UTF-8 bytes coincide with code points). -/
def issuerTagBytes : List Nat := "Issuer prefix:".toList.map Char.toNat

/-- Byte string of the Go constant `receiverPrefix = "Receiver prefix:"`. -/
def receiverTagBytes : List Nat := "Receiver prefix:".toList.map Char.toNat

/-- Fixed-width big-endian base-256 encoding of a natural number
(`w` bytes, truncating above `256^w`), the semantics of
`math.PaddedBigBytes` on a value already reduced below `256^w`. -/
def beBytes : Nat → Nat → List Nat
  | 0, _ => []
  | w + 1, m => beBytes w (m / 256) ++ [m % 256]

/-- Semantics of `abi.U256(big.NewInt n)`: reduce modulo `2^256` (two's-complement
wrap of `math.U256`) and emit the 32-byte big-endian encoding. -/
def abiU256 (n : Int) : List Nat := beBytes 32 (n % (2 : Int) ^ 256).toNat

/-- Go method `(p *Promise) HashBytes()`:
`crypto.Keccak256([]byte(issuerPrefix), p.Receiver.Bytes(), abi.U256(seqNo), abi.U256(amount))`. -/
def HashBytes (C : CryptoModel) (p : Promise) : List Nat :=
  C.keccak256 (issuerTagBytes ++ p.receiver ++ abiU256 p.seqNo ++ abiU256 p.amount)

/-- Embedding of `SignByPayer`: sign the promise hash with the payer key; propagate
a signing error, otherwise wrap the promise unchanged with the
signature attached. -/
def SignByPayer (C : CryptoModel) (promise : Promise) (payer : MystIdentity) :
    Except Err IssuedPromise :=
  match C.sign (HashBytes C promise) payer.privateKey with
  | .error e => .error e
  | .ok signature => .ok { promise := promise, issuerSignature := signature }

/-- The address recovery step at the top of `SignByReceiver`:
`crypto.Ecrecover(promise.HashBytes(), promise.IssuerSignature)` followed
by `crypto.PubkeyToAddress(*crypto.ToECDSAPub(publicKey))`. -/
def recoveredPayerAddr (C : CryptoModel) (promise : IssuedPromise) :
    Except Err (List Nat) :=
  match C.ecrecover (HashBytes C promise.promise) promise.issuerSignature with
  | .error e => .error e
  | .ok publicKey => .ok (C.pubkeyToAddress publicKey)

/-- The counter-signature hash computed inside `SignByReceiver`:
`crypto.Keccak256([]byte(receiverPrefix), promise.HashBytes(), payerAddr.Bytes())`. -/
def counterSignHash (C : CryptoModel) (promise : IssuedPromise) (payerAddr : List Nat) :
    List Nat :=
  C.keccak256 (receiverTagBytes ++ HashBytes C promise.promise ++ payerAddr)

/-- Embedding of `SignByReceiver`, faithful to the source: a recovery failure is
returned to the caller, but the error of the final `crypto.Sign` call is
discarded (the Go code returns `&ReceivedPromise{*promise, sig}, nil`
without checking `err`); on that path the attached signature is the
`nil` slice, modelled as `[]`. -/
def SignByReceiver (C : CryptoModel) (promise : IssuedPromise) (receiver : MystIdentity) :
    Except Err ReceivedPromise :=
  match recoveredPayerAddr C promise with
  | .error e => .error e
  | .ok payerAddr =>
    let hash := counterSignHash C promise payerAddr
    let sig := match C.sign hash receiver.privateKey with
      | .ok s => s
      | .error _ => []
    .ok { issued := promise, receiverSignature := sig }

/-- Result of `identity.DecomposeSignature`: `V byte` and `R, S [32]byte`. -/
structure DecomposedSignature where
  v : Nat
  r : List Nat
  s : List Nat
deriving DecidableEq, Repr

/-- Modelled from the spec: `identity.DecomposeSignature` is not under
src/ (only its callers are).  The spec describes it as a lossless, total
re-encoding of the 65-byte layout R‖S‖V into `{v, r, s}`, failing with a
malformed-signature error on wrong-length input. -/
def DecomposeSignature (sig : List Nat) : Except Err DecomposedSignature :=
  if sig.length = 65 then
    .ok { v := sig.getD 64 0, r := sig.take 32, s := (sig.drop 32).take 32 }
  else
    .error .malformedSignature

/-- Go `copy(dst[lo:hi], src)`: overwrite `min (hi - lo) src.length`
bytes of `dst` starting at `lo`, leaving the rest unchanged. -/
def goCopyAt (dst : List Nat) (lo hi : Nat) (src : List Nat) : List Nat :=
  dst.take lo ++ src.take (min (hi - lo) src.length)
    ++ dst.drop (lo + min (hi - lo) src.length)

/-- The parameter tuple handed to the ledger `ClearPromise` call. -/
structure ClearPromiseCall where
  packedWord : List Nat
  extraDataHash : List Nat
  seqNo : Int
  amount : Int
  issuerR : List Nat
  issuerS : List Nat
  receiverR : List Nat
  receiverS : List Nat
deriving DecidableEq, Repr

/-- Embedding of `(pc *PromiseClearing) ClearReceivedPromise`.  `consumerHash` stands
for `promise.ConsumerHash()` (modelled from the spec: a ledger-specific
32-byte "extra data" hash whose definition is not under src/).  The
returned `ClearPromiseCall` is the tuple submitted to the ledger; an
error result means no ledger call is made. -/
def ClearReceivedPromise (consumerHash : ReceivedPromise → List Nat)
    (promise : ReceivedPromise) : Except Err ClearPromiseCall :=
  match DecomposeSignature promise.issued.issuerSignature with
  | .error e => .error e
  | .ok issuerSig =>
    match DecomposeSignature promise.receiverSignature with
    | .error e => .error e
    | .ok receiverSig =>
      let addressAndSigns := [issuerSig.v, receiverSig.v] ++ promise.issued.promise.receiver
      let packedAddressAndSigns := goCopyAt (List.replicate 32 0) 10 32 addressAndSigns
      let extraDataHash := goCopyAt (List.replicate 32 0) 0 32 (consumerHash promise)
      .ok { packedWord := packedAddressAndSigns
            extraDataHash := extraDataHash
            seqNo := promise.issued.promise.seqNo
            amount := promise.issued.promise.amount
            issuerR := issuerSig.r
            issuerS := issuerSig.s
            receiverR := receiverSig.r
            receiverS := receiverSig.s }

/-- Address derived from a private key: the address of its public key. -/
def addressOf (C : CryptoModel) (k : Nat) : List Nat :=
  C.pubkeyToAddress (C.pubOf k)

/-- The spec's canonical-encoding words rendered directly: the fixed-width
32-byte big-endian (unsigned 256-bit) encoding of a natural number, byte
`i` holding `n / 256 ^ (31 - i) % 256`. -/
def specBigEndian32 (n : Nat) : List Nat :=
  (List.range 32).map fun i => n / 256 ^ (31 - i) % 256

/-- Modelled from the spec: the ledger contract's pending exit request
(`exitRequest() returns (uint256 timelock, address beneficiary)` in the
`ChannelImplementation` binding); the contract body is not under src/. -/
structure ExitRequest where
  beneficiary : List Nat
  timelockExpiry : Nat
deriving DecidableEq, Repr

/-- Modelled from the spec: the channel's exit-protocol state, holding at
most one outstanding (last accepted) exit request. -/
structure ChannelState where
  exitRequest : Option ExitRequest
deriving DecidableEq, Repr

/-- A payout performed by `finalizeExit`. -/
structure Payout where
  beneficiary : List Nat
deriving DecidableEq, Repr

/-- Modelled from the spec: `requestExit(beneficiary, validUntil, signature)`
of the ledger contract (not under src/; only the generated binding is).
Acceptance requires the operator's signature to check out — abstracted as
`sigValid` — and starts the timelock; a new accepted request supersedes
the previous one. -/
def requestExit (st : ChannelState) (beneficiary : List Nat) (sigValid : Bool)
    (now timelockPeriod : Nat) : Except Err ChannelState :=
  if sigValid then
    .ok { st with exitRequest := some ⟨beneficiary, now + timelockPeriod⟩ }
  else
    .error (.invalidSignature 0)

/-- Modelled from the spec: `finalizeExit()` of the ledger contract (not
under src/; only the generated binding is).  Before the timelock expiry it
fails with `ExitNotMatured`; after expiry it pays out to the beneficiary
of the last accepted exit request. -/
def finalizeExit (st : ChannelState) (now : Nat) : Except Err Payout :=
  match st.exitRequest with
  | none => .error .noExitRequest
  | some req =>
    if now < req.timelockExpiry then .error .exitNotMatured
    else .ok ⟨req.beneficiary⟩

/-!  Concrete instances used to exercise the definitions.  `toyCrypto` is
a tiny executable stand-in for the elliptic-curve primitives in which a
signature is the signer's key prepended to the hash, so recovery is exact;
`toyBadCrypto` is the same model except that signing with key 13 fails,
exercising the error path of `crypto.Sign`. -/

def toyCrypto : CryptoModel where
  keccak256 := fun l => [l.length % 256, l.foldl (· + ·) 0 % 256]
  sign := fun h k => .ok (k :: h)
  ecrecover := fun h s =>
    match s with
    | [] => .error (.invalidSignature 0)
    | k :: rest => if rest = h then .ok [k] else .error (.invalidSignature 1)
  pubkeyToAddress := fun pub => 99 :: pub
  pubOf := fun k => [k]

def toyBadCrypto : CryptoModel :=
  { toyCrypto with
    sign := fun h k => if k = 13 then .error (.signingError 0) else .ok (k :: h) }

/-- In `toyCrypto`, recovery inverts signing: the assumption of the
recover-of-sign property holds of the toy model. -/
theorem toyCrypto_recover_of_sign :
    ∀ h k s, toyCrypto.sign h k = .ok s →
      toyCrypto.ecrecover h s = .ok (toyCrypto.pubOf k) := by
  intro h k s hs
  simp only [toyCrypto] at hs ⊢
  cases hs
  simp

/-- The end-to-end example promise of the spec: receiver `0xAA..` (20
bytes of `0xAA`), sequence number 1, amount 1000. -/
def examplePromise : Promise :=
  { receiver := List.replicate 20 170, seqNo := 1, amount := 1000 }

/-- The example promise issued under `toyCrypto` by payer key 7 (the same
signature is valid under `toyBadCrypto`, whose hash function agrees). -/
def exampleIssued : IssuedPromise :=
  { promise := examplePromise
    issuerSignature := 7 :: HashBytes toyCrypto examplePromise }

/-- A fully co-signed fixture with well-formed 65-byte signatures, built
on the spec's end-to-end example promise. -/
def exampleReceived : ReceivedPromise :=
  { issued := { promise := examplePromise, issuerSignature := List.replicate 65 2 }
    receiverSignature := List.replicate 65 3 }

/-- A fixed stand-in for `ConsumerHash`, returning a 32-byte value. -/
def exampleConsumerHash : ReceivedPromise → List Nat := fun _ => List.replicate 32 9

/-- C1: for every `ReceivedPromise` whose two signatures decompose
successfully, `ClearReceivedPromise` submits the ledger call with exactly
the tuple `(packedWord, extraDataHash, sequenceNumber, cumulativeAmount,
issuer.r, issuer.s, counter.r, counter.s)`, where `packedWord` is a
32-byte word whose bytes 0-9 are zero, byte 10 is the issuer signature's
`v`, byte 11 is the counter-signer signature's `v`, and bytes 12-31 are
the 20-byte beneficiary address. -/
theorem ClearReceivedPromise_submits_exact_tuple
    (consumerHash : ReceivedPromise → List Nat) (p : ReceivedPromise)
    (isig rsig : DecomposedSignature)
    (hi : DecomposeSignature p.issued.issuerSignature = .ok isig)
    (hr : DecomposeSignature p.receiverSignature = .ok rsig)
    (hlen : p.issued.promise.receiver.length = 20) :
    ClearReceivedPromise consumerHash p =
      .ok { packedWord := List.replicate 10 0 ++ [isig.v, rsig.v] ++ p.issued.promise.receiver
            extraDataHash := goCopyAt (List.replicate 32 0) 0 32 (consumerHash p)
            seqNo := p.issued.promise.seqNo
            amount := p.issued.promise.amount
            issuerR := isig.r
            issuerS := isig.s
            receiverR := rsig.r
            receiverS := rsig.s } := by
  simp only [ClearReceivedPromise, hi, hr]
  have hsrc : ([isig.v, rsig.v] ++ p.issued.promise.receiver).length = 22 := by
    simp [hlen]
  congr 1
  simp only [goCopyAt, hsrc]
  norm_num [List.take_replicate, List.drop_replicate, List.take_of_length_le, hlen]

/-- C1 witness: the spec's end-to-end example evaluated concretely. -/
theorem ClearReceivedPromise_submits_exact_tuple_witness :
    ClearReceivedPromise exampleConsumerHash exampleReceived =
      .ok { packedWord := List.replicate 10 0 ++ [2, 3] ++ List.replicate 20 170
            extraDataHash := List.replicate 32 9
            seqNo := 1
            amount := 1000
            issuerR := List.replicate 32 2
            issuerS := List.replicate 32 2
            receiverR := List.replicate 32 3
            receiverS := List.replicate 32 3 } :=
  ClearReceivedPromise_submits_exact_tuple exampleConsumerHash exampleReceived
    ⟨2, List.replicate 32 2, List.replicate 32 2⟩
    ⟨3, List.replicate 32 3, List.replicate 32 3⟩
    rfl rfl (by decide)

/-- C9: if decomposition of either the issuer signature or the receiver
signature fails, `ClearReceivedPromise` returns that error and submits no
ledger call (an error result carries no `ClearPromiseCall`). -/
theorem ClearReceivedPromise_aborts_on_malformed_signature
    (consumerHash : ReceivedPromise → List Nat) (p : ReceivedPromise) (e : Err) :
    (DecomposeSignature p.issued.issuerSignature = .error e →
      ClearReceivedPromise consumerHash p = .error e) ∧
    (∀ isig, DecomposeSignature p.issued.issuerSignature = .ok isig →
      DecomposeSignature p.receiverSignature = .error e →
      ClearReceivedPromise consumerHash p = .error e) := by
  constructor
  · intro h
    simp [ClearReceivedPromise, h]
  · intro isig h1 h2
    simp [ClearReceivedPromise, h1, h2]

/-- C9 witness: a 64-byte issuer signature aborts the settlement with the
malformed-signature error. -/
theorem ClearReceivedPromise_aborts_on_malformed_signature_witness :
    ClearReceivedPromise exampleConsumerHash
      { issued := { promise := examplePromise, issuerSignature := List.replicate 64 2 }
        receiverSignature := List.replicate 65 3 } =
      .error .malformedSignature :=
  (ClearReceivedPromise_aborts_on_malformed_signature exampleConsumerHash
    { issued := { promise := examplePromise, issuerSignature := List.replicate 64 2 }
      receiverSignature := List.replicate 65 3 } .malformedSignature).1 rfl

/-- C2 (defect evidence): with an issuer signature that recovers fine and
an agent key whose own signing fails, `SignByReceiver` returns a partial
`ReceivedPromise` whose counter-signature is the nil slice, together with
a nil error — the `crypto.Sign` error is silently discarded instead of
being returned with a nil result. -/
theorem SignByReceiver_swallows_signing_error :
    SignByReceiver toyBadCrypto exampleIssued ⟨13⟩ =
      .ok { issued := exampleIssued, receiverSignature := [] } := rfl

/-- C3 counterexample: `SignByReceiver` can succeed although the agent
key produced no signature at all over the counter-signature hash (its
signing step failed and the error was discarded), so the attached
counter-signature is not the agent's signature over `h2`. -/
theorem SignByReceiver_success_without_agent_signature :
    SignByReceiver toyBadCrypto exampleIssued ⟨13⟩ =
      .ok { issued := exampleIssued, receiverSignature := [] } ∧
    recoveredPayerAddr toyBadCrypto exampleIssued = .ok [99, 7] ∧
    toyBadCrypto.sign (counterSignHash toyBadCrypto exampleIssued [99, 7]) 13 =
      .error (.signingError 0) := ⟨rfl, rfl, rfl⟩

/-- C3 (amended): whenever issuer-address recovery and the agent's own
signing both succeed, the attached counter-signature is the agent key's
signature over `h2 = hash(COUNTERSIGN_PREFIX, h1, payerAddress)`, with
`payerAddress` the address recovered from `(h1, issuerSignature)`, and
the two domain-separation tags are distinct. -/
theorem SignByReceiver_counter_signature_structure
    (C : CryptoModel) (ip : IssuedPromise) (r : MystIdentity) (a s : List Nat)
    (ha : recoveredPayerAddr C ip = .ok a)
    (hs : C.sign (counterSignHash C ip a) r.privateKey = .ok s) :
    SignByReceiver C ip r = .ok { issued := ip, receiverSignature := s } ∧
    counterSignHash C ip a =
      C.keccak256 (receiverTagBytes ++ HashBytes C ip.promise ++ a) ∧
    issuerTagBytes ≠ receiverTagBytes := by
  refine ⟨?_, rfl, by decide⟩
  simp [SignByReceiver, ha, hs]

/-- C3 witness: the amended statement evaluated in the toy model, where
agent key 5 signs successfully. -/
theorem SignByReceiver_counter_signature_structure_witness :
    SignByReceiver toyCrypto exampleIssued ⟨5⟩ =
      .ok { issued := exampleIssued
            receiverSignature := 5 :: counterSignHash toyCrypto exampleIssued [99, 7] } ∧
    counterSignHash toyCrypto exampleIssued [99, 7] =
      toyCrypto.keccak256
        (receiverTagBytes ++ HashBytes toyCrypto exampleIssued.promise ++ [99, 7]) ∧
    issuerTagBytes ≠ receiverTagBytes :=
  SignByReceiver_counter_signature_structure toyCrypto exampleIssued ⟨5⟩ [99, 7]
    (5 :: counterSignHash toyCrypto exampleIssued [99, 7]) rfl rfl

/-- C7: assuming the elliptic-curve primitives satisfy the standard
recovery property (recovering from a signature just produced yields the
signer's public key), the address recovered from `(hash(P),
issuerSignature)` of any `IssuedPromise` produced by `SignByPayer` is
exactly the payer's address — both for the raw `ecrecover` call and for
the recovery step `SignByReceiver` performs. -/
theorem recoverAddress_of_sign
    (C : CryptoModel)
    (Hrec : ∀ h k s, C.sign h k = .ok s → C.ecrecover h s = .ok (C.pubOf k))
    (p : Promise) (payer : MystIdentity) (ip : IssuedPromise)
    (hp : SignByPayer C p payer = .ok ip) :
    C.ecrecover (HashBytes C p) ip.issuerSignature = .ok (C.pubOf payer.privateKey) ∧
    recoveredPayerAddr C ip = .ok (addressOf C payer.privateKey) := by
  unfold SignByPayer at hp
  cases hs : C.sign (HashBytes C p) payer.privateKey with
  | error e => rw [hs] at hp; cases hp
  | ok s =>
    rw [hs] at hp
    cases hp
    have h := Hrec _ _ _ hs
    exact ⟨h, by simp [recoveredPayerAddr, h, addressOf]⟩

/-- C7 witness: in the toy model, recovery on the example issued promise
returns payer key 7's address. -/
theorem recoverAddress_of_sign_witness :
    toyCrypto.ecrecover (HashBytes toyCrypto examplePromise) exampleIssued.issuerSignature
      = .ok (toyCrypto.pubOf 7) ∧
    recoveredPayerAddr toyCrypto exampleIssued = .ok (addressOf toyCrypto 7) :=
  recoverAddress_of_sign toyCrypto toyCrypto_recover_of_sign examplePromise ⟨7⟩
    exampleIssued rfl

/-- The example promise co-signed in the toy model by agent key 5. -/
def exampleCounterSigned : ReceivedPromise :=
  { issued := exampleIssued
    receiverSignature := 5 :: counterSignHash toyCrypto exampleIssued [99, 7] }

/-- C10: the signing transitions never modify their input — an
`IssuedPromise` returned by `SignByPayer` embeds the input `Promise`
unchanged, and a `ReceivedPromise` returned by `SignByReceiver` embeds
the input `IssuedPromise` (receiver, sequence number, amount and issuer
signature) unchanged. -/
theorem sign_transitions_preserve_input
    (C : CryptoModel) (p : Promise) (payer : MystIdentity) (ip : IssuedPromise)
    (ipr : IssuedPromise) (r : MystIdentity) (rp : ReceivedPromise)
    (h1 : SignByPayer C p payer = .ok ip) (h2 : SignByReceiver C ipr r = .ok rp) :
    ip.promise = p ∧ rp.issued = ipr := by
  constructor
  · unfold SignByPayer at h1
    cases hs : C.sign (HashBytes C p) payer.privateKey with
    | error e => rw [hs] at h1; cases h1
    | ok s => rw [hs] at h1; cases h1; rfl
  · unfold SignByReceiver at h2
    cases ha : recoveredPayerAddr C ipr with
    | error e => rw [ha] at h2; cases h2
    | ok a => rw [ha] at h2; cases h2; rfl

/-- C10 witness: both transitions evaluated in the toy model leave their
inputs embedded unchanged. -/
theorem sign_transitions_preserve_input_witness :
    exampleIssued.promise = examplePromise ∧ exampleCounterSigned.issued = exampleIssued :=
  sign_transitions_preserve_input toyCrypto examplePromise ⟨7⟩ exampleIssued
    exampleIssued ⟨5⟩ exampleCounterSigned rfl rfl

/-- A promise with a negative sequence number and amount. -/
def negativePromise : Promise :=
  { receiver := List.replicate 20 170, seqNo := -1, amount := -5 }

/-- C4 counterexample: a promise with negative amount and sequence number
is not rejected — `HashBytes` (total, no error channel) produces a hash
and `SignByPayer` succeeds. -/
theorem signByPayer_negative_not_rejected :
    (SignByPayer toyCrypto negativePromise ⟨7⟩).isOk = true ∧
    (HashBytes toyCrypto negativePromise).length = 2 := ⟨rfl, rfl⟩

/-- C4 (amended): negative amounts and sequence numbers are not rejected:
`HashBytes` is total, `SignByPayer` succeeds on them whenever the signing
primitive does, and a negative value `x` with `-2^256 ≤ x` is silently
encoded as its two's-complement residue `2^256 + x`. -/
theorem signByPayer_no_negative_guard
    (C : CryptoModel) (p : Promise) (payer : MystIdentity) (s : List Nat)
    (hneg : p.amount < 0 ∨ p.seqNo < 0)
    (hs : C.sign (HashBytes C p) payer.privateKey = .ok s) :
    SignByPayer C p payer = .ok { promise := p, issuerSignature := s } ∧
    ∀ x : Int, -(2 ^ 256) ≤ x → x < 0 → abiU256 x = beBytes 32 (2 ^ 256 + x).toNat := by
  constructor
  · simp [SignByPayer, hs]
  · intro x hlo hhi
    have e1 : (x + (2 : Int) ^ 256 * 1) % (2 : Int) ^ 256 = x % (2 : Int) ^ 256 :=
      Int.add_mul_emod_self_left x ((2 : Int) ^ 256) 1
    have e2 : x % (2 : Int) ^ 256 = x + 2 ^ 256 := by
      rw [← e1, mul_one]
      exact Int.emod_eq_of_lt (by linarith) (by linarith)
    rw [abiU256, e2, add_comm]

/-- C4 witness: the amended statement at the concrete negative promise
and at `x = -1`. -/
theorem signByPayer_no_negative_guard_witness :
    SignByPayer toyCrypto negativePromise ⟨7⟩ =
      .ok { promise := negativePromise
            issuerSignature := 7 :: HashBytes toyCrypto negativePromise } ∧
    abiU256 (-1) = beBytes 32 ((2 : Int) ^ 256 + (-1)).toNat :=
  ⟨(signByPayer_no_negative_guard toyCrypto negativePromise ⟨7⟩ _
      (Or.inl (by decide)) rfl).1,
   (signByPayer_no_negative_guard toyCrypto negativePromise ⟨7⟩ _
      (Or.inl (by decide)) rfl).2 (-1) (by norm_num) (by norm_num)⟩

/-- A co-signed promise settling cumulative amount 100. -/
def received100 : ReceivedPromise :=
  { issued := { promise := { receiver := List.replicate 20 170, seqNo := 1, amount := 100 }
                issuerSignature := List.replicate 65 2 }
    receiverSignature := List.replicate 65 3 }

/-- A later co-signed promise on the same channel settling the strictly
lower cumulative amount 90. -/
def received90 : ReceivedPromise :=
  { issued := { promise := { receiver := List.replicate 20 170, seqNo := 2, amount := 90 }
                issuerSignature := List.replicate 65 2 }
    receiverSignature := List.replicate 65 3 }

/-- C5 counterexample: after a settlement of cumulative amount 100 on the
channel, submitting amount 90 is not rejected — `ClearReceivedPromise`
keeps no per-channel state, performs no monotonicity comparison, and
encodes and submits the lower amount. -/
theorem clearReceivedPromise_no_monotonic_guard :
    (ClearReceivedPromise exampleConsumerHash received100).isOk = true ∧
    ClearReceivedPromise exampleConsumerHash received90 =
      .ok { packedWord := List.replicate 10 0 ++ [2, 3] ++ List.replicate 20 170
            extraDataHash := List.replicate 32 9
            seqNo := 2
            amount := 90
            issuerR := List.replicate 32 2
            issuerS := List.replicate 32 2
            receiverR := List.replicate 32 3
            receiverS := List.replicate 32 3 } := ⟨rfl, rfl⟩

/-- C5 (amended): `ClearReceivedPromise` performs no client-side
monotonicity guard and has no `AmountNotMonotonic` error: it depends only
on the single submitted promise, and whenever both signatures decompose
it submits the ledger call carrying exactly that promise's cumulative
amount, regardless of any previously settled amount. -/
theorem clearReceivedPromise_stateless_submits_any_amount
    (consumerHash : ReceivedPromise → List Nat) (p : ReceivedPromise)
    (isig rsig : DecomposedSignature)
    (hi : DecomposeSignature p.issued.issuerSignature = .ok isig)
    (hr : DecomposeSignature p.receiverSignature = .ok rsig) :
    (ClearReceivedPromise consumerHash p).map (fun c => (c.amount, c.seqNo)) =
      .ok (p.issued.promise.amount, p.issued.promise.seqNo) := by
  simp [ClearReceivedPromise, hi, hr, Except.map]

/-- C5 witness: the amended statement at the amount-90 submission. -/
theorem clearReceivedPromise_stateless_submits_any_amount_witness :
    (ClearReceivedPromise exampleConsumerHash received90).map (fun c => (c.amount, c.seqNo)) =
      .ok (90, 2) :=
  clearReceivedPromise_stateless_submits_any_amount exampleConsumerHash received90
    ⟨2, List.replicate 32 2, List.replicate 32 2⟩
    ⟨3, List.replicate 32 3, List.replicate 32 3⟩ rfl rfl

/-- Fixed-width base-256 encoding, byte by byte: position `i` of
`beBytes w m` holds `m / 256 ^ (w - 1 - i) % 256`. -/
theorem beBytes_eq_map :
    ∀ w m : Nat, beBytes w m = (List.range w).map fun i => m / 256 ^ (w - 1 - i) % 256 := by
  intro w
  induction w with
  | zero => intro m; rfl
  | succ w ih =>
    intro m
    simp only [beBytes]
    rw [ih (m / 256), List.range_succ, List.map_append]
    congr 1
    · refine List.map_congr_left fun i hi => ?_
      have hiw : i < w := List.mem_range.mp hi
      have he : w + 1 - 1 - i = (w - 1 - i) + 1 := by omega
      rw [Nat.div_div_eq_div_mul, he, pow_succ, mul_comm 256 (256 ^ (w - 1 - i))]
    · simp

/-- Every fixed-width encoding has exactly its nominal width. -/
theorem beBytes_length : ∀ w m : Nat, (beBytes w m).length = w := by
  intro w
  induction w with
  | zero => intro m; rfl
  | succ w ih => intro m; simp [beBytes, ih]

/-- C6: `HashBytes` is a pure function of the three promise fields and
the fixed issuer tag, hashing the byte sequence formed from the raw
20-byte beneficiary address and the fixed-width 32-byte big-endian
(unsigned 256-bit) encodings of `sequenceNumber` and `amount` (stated for
values in the `int64` range; order in the source is tag, address,
sequence number, amount). -/
theorem hashBytes_canonical
    (C : CryptoModel) (p : Promise)
    (h1 : 0 ≤ p.seqNo) (h2 : p.seqNo < 2 ^ 63)
    (h3 : 0 ≤ p.amount) (h4 : p.amount < 2 ^ 63) :
    HashBytes C p =
      C.keccak256 (issuerTagBytes ++ p.receiver
        ++ specBigEndian32 p.seqNo.toNat ++ specBigEndian32 p.amount.toNat) ∧
    (abiU256 p.seqNo).length = 32 ∧ (abiU256 p.amount).length = 32 := by
  have key : ∀ n : Int, 0 ≤ n → n < 2 ^ 63 → abiU256 n = specBigEndian32 n.toNat := by
    intro n hlo hhi
    have hmod : n % (2 : Int) ^ 256 = n :=
      Int.emod_eq_of_lt hlo (lt_trans hhi (by norm_num))
    rw [abiU256, hmod, specBigEndian32, beBytes_eq_map]
  exact ⟨by rw [HashBytes, key p.seqNo h1 h2, key p.amount h3 h4],
    by rw [abiU256]; exact beBytes_length 32 _,
    by rw [abiU256]; exact beBytes_length 32 _⟩

/-- C6 witness: the canonical layout evaluated at the example promise. -/
theorem hashBytes_canonical_witness :
    HashBytes toyCrypto examplePromise =
      toyCrypto.keccak256 (issuerTagBytes ++ examplePromise.receiver
        ++ specBigEndian32 1 ++ specBigEndian32 1000) ∧
    (abiU256 examplePromise.seqNo).length = 32 ∧
    (abiU256 examplePromise.amount).length = 32 :=
  hashBytes_canonical toyCrypto examplePromise
    (by decide) (by decide) (by decide) (by decide)

/-- C8 (modelled from the spec, see `finalizeExit`): once an exit request
for beneficiary `b` has been accepted, `finalizeExit` before the timelock
expiry fails with `ExitNotMatured`, and at or after expiry it succeeds
and pays out to `b`, the beneficiary of the last accepted request. -/
theorem finalizeExit_timelock
    (st st' : ChannelState) (b : List Nat) (start period now : Nat)
    (hreq : requestExit st b true start period = .ok st') :
    (now < start + period → finalizeExit st' now = .error .exitNotMatured) ∧
    (start + period ≤ now → finalizeExit st' now = .ok ⟨b⟩) := by
  simp only [requestExit, if_true] at hreq
  cases hreq
  constructor
  · intro h
    simp [finalizeExit, h]
  · intro h
    simp [finalizeExit, Nat.not_lt.mpr h]

/-- C8 witness: a request accepted at time 10 with a 5-tick timelock
(superseding an older request) cannot be finalized at time 12 and pays
the requested beneficiary at time 20. -/
theorem finalizeExit_timelock_witness :
    finalizeExit ⟨some ⟨[1, 2], 15⟩⟩ 12 = .error .exitNotMatured ∧
    finalizeExit ⟨some ⟨[1, 2], 15⟩⟩ 20 = .ok ⟨[1, 2]⟩ :=
  ⟨(finalizeExit_timelock ⟨some ⟨[5], 3⟩⟩ ⟨some ⟨[1, 2], 15⟩⟩ [1, 2] 10 5 12 rfl).1
      (by decide),
   (finalizeExit_timelock ⟨some ⟨[5], 3⟩⟩ ⟨some ⟨[1, 2], 15⟩⟩ [1, 2] 10 5 20 rfl).2
      (by decide)⟩

end Payments
